import Mathlib

/-!
# Verification of the Valhalla orchestrator against its specification

Shallow embedding of the V2 components of the repository:
* `src/vertex_claude_v2.py` (class `VertexClaudeV2`, the Model Gateway),
* `src/context_manager_v2.py` (class `ContextManagerV2`, the Persistence Gateway),
* `src/app_v2.py` (`handle_user_input`, the Session Controller turn handler).

Modelling conventions:
* Python exceptions raised by the remote services (Vertex AI, Firestore) are
  modelled as explicit outcome values supplied by oracles
  (`Except String String` for the generate call, `StoreRead` / `WriteRes`
  for store reads and writes).  The embedded functions are total; a function
  whose Python counterpart catches every exception and converts it into a
  return value is therefore a plain Lean function into its return type.
* Wall-clock time (`datetime.now()` / `time.time()`) is passed in as an
  explicit rational parameter.
* Python `float` arithmetic is modelled as exact rational arithmetic (`ℚ`).
* Python dictionaries are modelled as insertion-ordered association lists
  with replace-on-assignment semantics.
-/

set_option maxRecDepth 10000

namespace Valhalla

/-- A chat message (Python dict with keys `role` and `content`). -/
structure Message where
  role : String
  content : String
deriving DecidableEq, Repr

/-- A Python value stored in a document field, as needed by the claims. -/
inductive Val where
  | str (s : String)
  | bool (b : Bool)
  | int (n : Int)
deriving DecidableEq, Repr

/-- Rendering of a value by a Python f-string interpolation `f"{value}"`. -/
def Val.render : Val → String
  | .str s => s
  | .bool b => if b then "True" else "False"
  | .int n => toString n

/-- A document: an insertion-ordered association list, as a Python dict. -/
abbrev Doc := List (String × Val)

/-- Association-list lookup (first binding wins, like a Python dict key). -/
def dictFind (d : Doc) (key : String) : Option Val :=
  match d with
  | [] => none
  | (k, v) :: rest => if k = key then some v else dictFind rest key

/-! ## `src/vertex_claude_v2.py` — class `VertexClaudeV2` -/

namespace VertexClaudeV2

/-- Mutable attributes of a `VertexClaudeV2` instance.  `model_configured`
stands for `self.model is not None`. -/
structure GatewayState where
  project_id : Option String
  location : String
  model_name : String
  model_configured : Bool
  last_request_cost : ℚ
  total_requests : ℕ
  total_cost : ℚ
  last_response_time : ℚ
deriving DecidableEq, Repr

/-- `PRICING['input']` — 0.003 dollars per 1K input tokens. -/
def PRICING_input : ℚ := 3 / 1000

/-- `PRICING['output']` — 0.015 dollars per 1K output tokens. -/
def PRICING_output : ℚ := 15 / 1000

/-- `self.project_id or 'NOT SET'` (Python truthiness: `None` and `""` are
falsy). -/
def projectIdDisplay (pid : Option String) : String :=
  match pid with
  | none => "NOT SET"
  | some p => if p = "" then "NOT SET" else p

/-- `VertexClaudeV2._format_error`. -/
def format_error (s : GatewayState) (title details : String)
    (troubleshooting : Option String) : String :=
  let error_msg := "❌ **" ++ title ++ "**\n\n**Details:** " ++ details ++ "\n"
  let error_msg :=
    match troubleshooting with
    | some t => error_msg ++ "\n**Troubleshooting:**\n" ++ t ++ "\n"
    | none => error_msg
  error_msg ++ "\n**Configuration:**\n- Project ID: " ++ projectIdDisplay s.project_id ++
    "\n- Region: " ++ s.location ++ "\n- Model: " ++ s.model_name ++
    "\n\n**Need Help?**\nCheck the deployment documentation or run the diagnostic script.\n"

/-- `VertexClaudeV2._get_troubleshooting_steps`. -/
def troubleshooting_steps : String :=
  "\n1. Verify GCP_PROJECT_ID environment variable is set correctly\n2. Ensure Claude is enabled in Vertex AI Model Garden\n3. Check service account has Vertex AI User role\n4. Verify the model name is correct for your region\n5. Check GCP quotas and billing\n6. Review Cloud Logging for detailed error messages\n"

/-- First part of the `base_prompt` literal in `_build_system_prompt`
(mission facts and capabilities). -/
def base_prompt_1 : String :=
  "You are Claude, technical co-founder in a 90-day bootstrap mission.\n\nMISSION CONTEXT:\n- Partnership: James (vision/strategy) + Claude (technical/execution)\n- Timeline: Oct 17, 2025 → Jan 15, 2026 (90 days)\n- Goal: $15,000 monthly recurring revenue\n- Primary Revenue Stream: HAVEN Platform (community/service hub)\n- Infrastructure: GCP (Cloud Run, Firestore, Vertex AI)\n- Philosophy: Ship fast, iterate constantly, delegate to AI agents\n\nCAPABILITIES:\n- Full-stack development (Python, JavaScript, React, FastAPI)\n- GCP infrastructure and deployment\n- Database design and optimization\n- API development and integration\n- UI/UX design with modern frameworks\n- DevOps and CI/CD pipelines"

/-- Second part of the `base_prompt` appended in `_build_system_prompt`
(communication-style rules), appended after the context lines. -/
def base_prompt_2 : String :=
  "\nCOMMUNICATION STYLE:\n- Be direct, technical, and action-oriented\n- Provide working code examples\n- Include deployment and testing steps\n- Focus on pragmatic solutions\n- No unnecessary explanations\n\nWhen asked to build something:\n1. Confirm requirements\n2. Design architecture\n3. Generate production-ready code\n4. Provide deployment instructions\n5. Suggest testing approaches\n"

/-- The `- key: value` lines of the context, skipping the internal timestamp
keys `created_at` and `last_updated`. -/
def context_lines (ctx : Doc) : String :=
  String.join (ctx.map fun kv =>
    if kv.1 = "created_at" ∨ kv.1 = "last_updated" then ""
    else "- " ++ kv.1 ++ ": " ++ Val.render kv.2 ++ "\n")

/-- The block `_build_system_prompt` inserts when `context` is truthy
(`None` and the empty dict are falsy in Python). -/
def context_block : Option Doc → String
  | none => ""
  | some ctx =>
    if ctx.isEmpty then "" else "\n\nCURRENT PROJECT CONTEXT:\n" ++ context_lines ctx

/-- `VertexClaudeV2._build_system_prompt`. -/
def build_system_prompt (context : Option Doc) : String :=
  base_prompt_1 ++ context_block context ++ base_prompt_2

/-- One history message rendered as `f"{role}: {content}\n\n"` with
`role = msg['role'].upper()`. -/
def render_message (msg : Message) : String :=
  msg.role.toUpper ++ ": " ++ msg.content ++ "\n\n"

/-- The history section of the prompt: the last 10 messages
(`conversation_history[-10:]`), skipped when the history is `None` or empty
(Python truthiness). -/
def history_block : Option (List Message) → String
  | none => ""
  | some h =>
    if h.isEmpty then ""
    else String.join ((h.drop (h.length - 10)).map render_message)

/-- `VertexClaudeV2._build_prompt`. -/
def build_prompt (user_message : String) (context : Option Doc)
    (conversation_history : Option (List Message)) : String :=
  build_system_prompt context ++ "\n\n" ++ history_block conversation_history ++
    "USER: " ++ user_message ++ "\n\nASSISTANT:"

/-- `VertexClaudeV2._calculate_cost`: four characters per token, then the
per-1K-token prices. -/
def calculate_cost (s : GatewayState) (prompt response : String) : GatewayState :=
  let input_tokens : ℚ := (prompt.length : ℚ) / 4
  let output_tokens : ℚ := (response.length : ℚ) / 4
  let input_cost : ℚ := (input_tokens / 1000) * PRICING_input
  let output_cost : ℚ := (output_tokens / 1000) * PRICING_output
  { s with
    last_request_cost := input_cost + output_cost,
    total_cost := s.total_cost + (input_cost + output_cost) }

/-- The retry loop of `VertexClaudeV2.chat` (`for attempt in range(retry_count)`).
`gen i` is the outcome of `self.model.generate_content` on attempt `i`
(`.ok text` returns `response.text`, `.error e` raises with message `e`).
`remaining` is `retry_count - attempt`.  Returns the returned string, the
updated instance state, the list of back-off waits performed (in seconds),
and the number of attempts made. -/
def chatLoop (gen : ℕ → Except String String) (full_prompt : String) (elapsed : ℚ) :
    ℕ → ℕ → GatewayState → String × GatewayState × List ℕ × ℕ
  | 0, _, s =>
    (format_error s "Maximum retries exceeded" "Please try again later" none, s, [], 0)
  | remaining + 1, attempt, s =>
    match gen attempt with
    | Except.ok text =>
      let s1 := { s with last_response_time := elapsed }
      let s2 := calculate_cost s1 full_prompt text
      let s3 := { s2 with total_requests := s2.total_requests + 1 }
      (text, s3, [], 1)
    | Except.error e =>
      match remaining with
      | 0 =>
        (format_error s "Vertex AI request failed" e (some troubleshooting_steps), s, [], 1)
      | r + 1 =>
        let wait_time := 2 ^ attempt * 1
        let rest := chatLoop gen full_prompt elapsed (r + 1) (attempt + 1) s
        (rest.1, rest.2.1, wait_time :: rest.2.2.1, rest.2.2.2 + 1)

/-- `VertexClaudeV2.chat`.  `elapsed` is the wall-clock duration observed by a
successful attempt (`time.time() - start_time`). -/
def chat (s : GatewayState) (user_message : String) (context : Option Doc)
    (conversation_history : Option (List Message)) (elapsed : ℚ)
    (gen : ℕ → Except String String) (retry_count : ℕ) :
    String × GatewayState × List ℕ × ℕ :=
  if s.model_configured = false then
    (format_error s "Vertex AI not configured"
      "Set GCP_PROJECT_ID environment variable and ensure Vertex AI is enabled" none,
      s, [], 0)
  else
    let full_prompt := build_prompt user_message context conversation_history
    chatLoop gen full_prompt elapsed retry_count 0 s

/-- `VertexClaudeV2.reset_stats`. -/
def reset_stats (s : GatewayState) : GatewayState :=
  { s with total_requests := 0, total_cost := 0, last_request_cost := 0 }

end VertexClaudeV2

/-! ## `src/context_manager_v2.py` — class `ContextManagerV2` -/

namespace ContextManagerV2

/-- Outcome of one Firestore document read (`ref.get()`): the document exists
(`found` with its dict), the document is absent (`missing`), or the client
raised (`fail` with the exception message). -/
inductive StoreRead where
  | found (doc : Valhalla.Doc)
  | missing
  | fail (msg : String)
deriving DecidableEq, Repr

/-- Outcome of one Firestore document write (`ref.set(...)`). -/
inductive WriteRes where
  | ok
  | fail (msg : String)
deriving DecidableEq, Repr

/-- A cache binding: key, cached document, insertion time (seconds). -/
abbrev CacheEntry := String × Valhalla.Doc × ℚ

/-- Mutable attributes of a `ContextManagerV2` instance.  `db_connected`
stands for `self.db is not None`; `cache` is `self.cache`, an
insertion-ordered dict mapping keys to `(data, time)` pairs. -/
structure CtxState where
  db_connected : Bool
  cache : List CacheEntry
deriving DecidableEq, Repr

/-- `self.cache_ttl` — 300 seconds. -/
def cache_ttl : ℚ := 300

/-- Dict lookup in the cache. -/
def cache_lookup (cache : List CacheEntry) (key : String) : Option (Valhalla.Doc × ℚ) :=
  match cache with
  | [] => none
  | (k, d, t) :: rest => if k = key then some (d, t) else cache_lookup rest key

/-- Dict assignment `self.cache[key] = (doc, now)`: replace the existing
binding in place, else append. -/
def cache_insert (cache : List CacheEntry) (key : String) (doc : Valhalla.Doc)
    (t : ℚ) : List CacheEntry :=
  match cache with
  | [] => [(key, doc, t)]
  | (k, d0, t0) :: rest =>
    if k = key then (key, doc, t) :: rest
    else (k, d0, t0) :: cache_insert rest key doc t

/-- `project_name.lower().replace(' ', '_')` (the replaced pattern is the
single character `' '`, so a character-wise map is exact). -/
def doc_id (project_name : String) : String :=
  String.map (fun c => if c = ' ' then '_' else c) project_name.toLower

/-- `ContextManagerV2._get_default_project_context`. -/
def get_default_project_context (project_name : String) : Valhalla.Doc :=
  [("name", Val.str project_name),
   ("status", Val.str "Unknown"),
   ("description", Val.str "Context unavailable - Firestore not connected"),
   ("offline_mode", Val.bool true)]

/-- The fetch-from-Firestore part of `get_project_context` (reached on a
cache miss or a stale cache entry).  `store` is the document store read
oracle, keyed by document id.  The third component records whether the
store was queried. -/
def fetch_project (s : CtxState) (store : String → StoreRead) (now : ℚ)
    (project_name cache_key : String) : Valhalla.Doc × CtxState × Bool :=
  if s.db_connected = false then
    (get_default_project_context project_name, s, false)
  else
    match store (doc_id project_name) with
    | StoreRead.found doc =>
      (doc, { s with cache := cache_insert s.cache cache_key doc now }, true)
    | StoreRead.missing => (get_default_project_context project_name, s, true)
    | StoreRead.fail _ => (get_default_project_context project_name, s, true)

/-- `ContextManagerV2.get_project_context`.  Returns the context dict, the
updated instance state, and whether the store was queried. -/
def get_project_context (s : CtxState) (store : String → StoreRead) (now : ℚ)
    (project_name : String) : Valhalla.Doc × CtxState × Bool :=
  let cache_key := "project_" ++ project_name
  match cache_lookup s.cache cache_key with
  | some (cached_data, cached_time) =>
    if now - cached_time < cache_ttl then (cached_data, s, false)
    else fetch_project s store now project_name cache_key
  | none => fetch_project s store now project_name cache_key

/-- The conversation document written by `save_conversation`
(`last_updated` is the `SERVER_TIMESTAMP` the server assigns). -/
structure ConversationDoc where
  project : String
  messages : List Message
  message_count : ℕ
  last_updated : ℚ
  version : ℕ
deriving DecidableEq, Repr

/-- A backup record in the `conversation_history` collection. -/
structure HistoryDoc where
  project : String
  messages : List Message
  saved_at : ℚ
  message_count : ℕ
deriving DecidableEq, Repr

/-- The durable document store touched by conversation saves: the
`conversations` collection (one document per normalized project key) and the
append-only `conversation_history` collection. -/
structure Store where
  conversations : List (String × ConversationDoc)
  history : List HistoryDoc
deriving DecidableEq, Repr

/-- Lookup of a conversation document by its document id. -/
def conv_lookup (l : List (String × ConversationDoc)) (key : String) :
    Option ConversationDoc :=
  match l with
  | [] => none
  | (k, d) :: rest => if k = key then some d else conv_lookup rest key

/-- `conversation_ref.set(...)`: unconditional overwrite of the document at
`key` (replace-or-create). -/
def conv_insert (l : List (String × ConversationDoc)) (key : String)
    (doc : ConversationDoc) : List (String × ConversationDoc) :=
  match l with
  | [] => [(key, doc)]
  | (k, d0) :: rest =>
    if k = key then (key, doc) :: rest
    else (k, d0) :: conv_insert rest key doc

/-- `ContextManagerV2._save_conversation_history`: best-effort append of a
backup record; its own `try/except` swallows any write failure, leaving the
store unchanged. -/
def save_conversation_history (st : Store) (backup_write : WriteRes)
    (project : String) (messages : List Message) (now : ℚ) : Store :=
  match backup_write with
  | WriteRes.ok =>
    { st with history := st.history ++ [⟨project, messages, now, messages.length⟩] }
  | WriteRes.fail _ => st

/-- `ContextManagerV2.save_conversation`.  `primary_write` / `backup_write`
are the outcomes of the two Firestore `set` calls; a raising primary write
is caught by the outer `except` and converted to `False`.  Returns the
boolean result and the updated store. -/
def save_conversation (s : CtxState) (st : Store)
    (primary_write backup_write : WriteRes) (project : String)
    (messages : List Message) (now : ℚ) : Bool × Store :=
  if s.db_connected = false then (false, st)
  else
    match primary_write with
    | WriteRes.fail _ => (false, st)
    | WriteRes.ok =>
      let doc : ConversationDoc := ⟨project, messages, messages.length, now, 2⟩
      let st1 := { st with conversations := conv_insert st.conversations (doc_id project) doc }
      let st2 := save_conversation_history st1 backup_write project messages now
      (true, st2)

end ContextManagerV2

/-! ## `src/app_v2.py` — the Session Controller turn handler -/

namespace AppV2

open VertexClaudeV2 ContextManagerV2

/-- The per-session display state owned by the Session Controller
(`st.session_state`): transcript, current project, running counters. -/
structure SessionState where
  messages : List Message
  current_project : String
  total_cost : ℚ
  request_count : ℕ
deriving DecidableEq, Repr

/-- `handle_user_input` of `src/app_v2.py`: append the user message, fetch
the project context, call `chat`, increment `request_count` and add the
gateway's `last_request_cost` to `total_cost`, append the assistant message,
then auto-save the conversation (its own `try/except` ignores failures).
Returns the updated session, persistence-gateway, model-gateway and store
states. -/
def handle_user_input (sess : SessionState) (cm : CtxState) (gw : GatewayState)
    (store : String → StoreRead) (now : ℚ) (gen : ℕ → Except String String)
    (elapsed : ℚ) (st : Store) (primary_write backup_write : WriteRes)
    (user_input : String) : SessionState × CtxState × GatewayState × Store :=
  let msgs1 := sess.messages ++ [⟨"user", user_input⟩]
  let ctxRes := get_project_context cm store now sess.current_project
  let chatRes := chat gw user_input (some ctxRes.1) (some msgs1) elapsed gen 3
  let rc := sess.request_count + 1
  let tc := sess.total_cost + chatRes.2.1.last_request_cost
  let msgs2 := msgs1 ++ [⟨"assistant", chatRes.1⟩]
  let saveRes := save_conversation ctxRes.2.1 st primary_write backup_write
      sess.current_project msgs2 now
  ({ sess with messages := msgs2, request_count := rc, total_cost := tc },
   ctxRes.2.1, chatRes.2.1, saveRes.2)

end AppV2

/-! ## Spec-side definition for the prompt-layout refinement claim -/

namespace VertexClaudeV2

/-- Modelled from the spec: the prompt layout as the spec describes it —
"the fixed system preamble (mission facts, capabilities, communication-style
rules), then the context key/value lines, then up to the last 10 history
messages, then the new user message, then an assistant-turn marker" — i.e.
with the whole fixed preamble (`base_prompt_1 ++ base_prompt_2`) standing
before the context lines.  To be compared with `build_prompt`, which is
embedded from the source. -/
def build_prompt_spec (user_message : String) (context : Option Doc)
    (conversation_history : Option (List Message)) : String :=
  base_prompt_1 ++ base_prompt_2 ++ context_block context ++ "\n\n" ++
    history_block conversation_history ++ "USER: " ++ user_message ++ "\n\nASSISTANT:"

end VertexClaudeV2

/-! ## Concrete sample states used by witnesses and counterexamples -/

/-- A configured gateway in its initial-statistics state. -/
def gwConfigured : VertexClaudeV2.GatewayState :=
  ⟨some "demo-project", "us-central1", "claude-3-5-sonnet@20240620", true, 0, 0, 0, 0⟩

/-- An unconfigured gateway (`GCP_PROJECT_ID` unset, `self.model is None`)
carrying a stale `last_request_cost` from an earlier session. -/
def gwUnconfigured : VertexClaudeV2.GatewayState :=
  ⟨none, "us-central1", "claude-3-5-sonnet@20240620", false, 1 / 100, 0, 0, 0⟩

/-- A configured gateway after some use: nonzero aggregates and last-call
figures. -/
def gwUsed : VertexClaudeV2.GatewayState :=
  ⟨some "demo-project", "us-central1", "claude-3-5-sonnet@20240620", true,
    1 / 200, 7, 3 / 100, 5 / 2⟩

/-- A sample project document. -/
def docSample : Doc := [("name", Val.str "X"), ("status", Val.str "Live")]

/-- A persistence gateway holding a cached copy of project `X` fetched at
time 0. -/
def cmCached : ContextManagerV2.CtxState := ⟨true, [("project_X", docSample, 0)]⟩

/-- A persistence gateway with no store connection (`self.db is None`). -/
def cmOffline : ContextManagerV2.CtxState := ⟨false, []⟩

/-- A connected persistence gateway with an empty cache. -/
def cmOnline : ContextManagerV2.CtxState := ⟨true, []⟩

/-- A fresh session: empty transcript, zero counters. -/
def sessInit : AppV2.SessionState := ⟨[], "HAVEN Platform", 0, 0⟩

/-- An empty document store. -/
def stEmpty : ContextManagerV2.Store := ⟨[], []⟩

/-- A store read oracle on which every looked-up document is absent. -/
def storeMissing : String → ContextManagerV2.StoreRead :=
  fun _ => ContextManagerV2.StoreRead.missing

/-- A store read oracle on which every access raises. -/
def storeFails : String → ContextManagerV2.StoreRead :=
  fun _ => ContextManagerV2.StoreRead.fail "unavailable"

/-- A remote generate call that raises on every attempt. -/
def genFails : ℕ → Except String String := fun _ => Except.error "boom"

/-- An eleven-message conversation history. -/
def hist11 : List Message := List.replicate 11 ⟨"user", "m"⟩

/-- A one-entry context dict. -/
def ctxKV : Doc := [("k", Val.str "v")]

/-! ## Shared helper lemmas -/

namespace ContextManagerV2

/-- Overwriting a document and reading it back by the same key yields the
new document. -/
theorem conv_lookup_insert (l : List (String × ConversationDoc)) (key : String)
    (doc : ConversationDoc) : conv_lookup (conv_insert l key doc) key = some doc := by
  induction l with
  | nil => simp [conv_insert, conv_lookup]
  | cons hd tl ih =>
    by_cases h : hd.1 = key
    · simp [conv_insert, conv_lookup, h]
    · simp [conv_insert, conv_lookup, h, ih]

/-- The best-effort history backup never touches the `conversations`
collection. -/
theorem save_conversation_history_conversations (st : Store) (b : WriteRes)
    (project : String) (messages : List Message) (now : ℚ) :
    (save_conversation_history st b project messages now).conversations =
      st.conversations := by
  cases b <;> rfl

end ContextManagerV2

/-! ## Claim theorems -/

open VertexClaudeV2 ContextManagerV2 AppV2

/-- C1: on a configured gateway with `retry_count = 3`, if the remote
`generate_content` call raises on every attempt, `chat` makes exactly 3
attempts, waits exactly `2^attempt` seconds between consecutive attempts
(1s after attempt 0, 2s after attempt 1, none after the final failure),
leaves the instance state unchanged, and returns the formatted
request-failed error message instead of raising. -/
theorem chat_three_failures_backoff (s : GatewayState) (msg : String)
    (ctx : Option Doc) (hist : Option (List Message)) (elapsed : ℚ)
    (gen : ℕ → Except String String) (e : ℕ → String)
    (hm : s.model_configured = true)
    (hg : ∀ i, gen i = Except.error (e i)) :
    chat s msg ctx hist elapsed gen 3 =
      (format_error s "Vertex AI request failed" (e 2) (some troubleshooting_steps),
        s, [1, 2], 3) := by
  have h0 := hg 0
  have h1 := hg 1
  have h2 := hg 2
  simp [chat, hm, chatLoop, h0, h1, h2]

/-- Witness for C1 at a concrete configured gateway and an always-failing
remote call. -/
theorem chat_three_failures_backoff_witness :
    chat gwConfigured "hi" none none 0 genFails 3 =
      (format_error gwConfigured "Vertex AI request failed" "boom"
        (some troubleshooting_steps), gwConfigured, [1, 2], 3) :=
  chat_three_failures_backoff gwConfigured "hi" none none 0 genFails
    (fun _ => "boom") rfl (fun _ => rfl)

/-- C7: `_calculate_cost` records
`(promptChars/4/1000)*0.003 + (responseChars/4/1000)*0.015` in
`last_request_cost` and accumulates it into `total_cost`; a 4000-character
prompt with a 2000-character response costs exactly 0.0105 = 21/2000. -/
theorem calculate_cost_formula :
    (∀ (s : GatewayState) (prompt response : String),
      (calculate_cost s prompt response).last_request_cost =
        ((prompt.length : ℚ) / 4 / 1000) * (3 / 1000) +
          ((response.length : ℚ) / 4 / 1000) * (15 / 1000) ∧
      (calculate_cost s prompt response).total_cost =
        s.total_cost + (calculate_cost s prompt response).last_request_cost) ∧
    (∀ s : GatewayState,
      (calculate_cost s (String.mk (List.replicate 4000 'a'))
          (String.mk (List.replicate 2000 'b'))).last_request_cost = 21 / 2000) := by
  constructor
  · intro s prompt response
    constructor
    · simp [calculate_cost, PRICING_input, PRICING_output]
    · simp [calculate_cost]
  · intro s
    have hp : (String.mk (List.replicate 4000 'a')).length = 4000 := by
      rw [String.length_mk, List.length_replicate]
    have hr : (String.mk (List.replicate 2000 'b')).length = 2000 := by
      rw [String.length_mk, List.length_replicate]
    simp only [calculate_cost, PRICING_input, PRICING_output]
    rw [hp, hr]
    norm_num

/-- C9 counterexample: the claim says `reset_stats` leaves
`last_request_cost` at its pre-reset value, but on a gateway whose last
request cost 1/200 the reset zeroes it. -/
theorem reset_stats_clears_last_request_cost :
    (reset_stats gwUsed).last_request_cost ≠ gwUsed.last_request_cost := by
  norm_num [reset_stats, gwUsed]

/-- C9 (amended): `reset_stats` zeroes `total_requests`, `total_cost` and
also `last_request_cost`, and changes nothing else — `last_response_time`
and the configuration fields keep their values. -/
theorem reset_stats_effect (s : GatewayState) :
    reset_stats s =
      { s with total_requests := 0, total_cost := 0, last_request_cost := 0 } ∧
    (reset_stats s).last_response_time = s.last_response_time ∧
    (reset_stats s).project_id = s.project_id ∧
    (reset_stats s).location = s.location ∧
    (reset_stats s).model_name = s.model_name ∧
    (reset_stats s).model_configured = s.model_configured ∧
    (reset_stats s).total_requests = 0 ∧
    (reset_stats s).total_cost = 0 ∧
    (reset_stats s).last_request_cost = 0 :=
  ⟨rfl, rfl, rfl, rfl, rfl, rfl, rfl, rfl, rfl⟩

/-- When the fetch path ends in a miss or a raised store exception on a
connected client, `fetch_project` returns the default context, leaves the
state unchanged, and has queried the store. -/
theorem fetch_project_fallback (s : CtxState) (store : String → StoreRead)
    (now : ℚ) (name key : String) (hdb : s.db_connected = true)
    (h : store (doc_id name) = StoreRead.missing ∨
      ∃ m, store (doc_id name) = StoreRead.fail m) :
    fetch_project s store now name key = (get_default_project_context name, s, true) := by
  rcases h with h | ⟨m, h⟩ <;> simp [fetch_project, hdb, h]

/-- On a connected client, the fetch path always queries the store. -/
theorem fetch_project_queries (s : CtxState) (store : String → StoreRead)
    (now : ℚ) (name key : String) (hdb : s.db_connected = true) :
    (fetch_project s store now name key).2.2 = true := by
  rcases hs : store (doc_id name) <;> simp [fetch_project, hdb, hs]

/-- With a connected client and no fresh cache entry, `get_project_context`
queries the store. -/
theorem get_project_context_queries (s : CtxState) (store : String → StoreRead)
    (now : ℚ) (name : String) (hdb : s.db_connected = true)
    (hstale : ∀ d t, cache_lookup s.cache ("project_" ++ name) = some (d, t) →
      cache_ttl ≤ now - t) :
    (get_project_context s store now name).2.2 = true := by
  rcases hc : cache_lookup s.cache ("project_" ++ name) with _ | ⟨d, t⟩
  · simp [get_project_context, hc, fetch_project_queries s store now name _ hdb]
  · have hnot : ¬ (now - t < cache_ttl) := not_lt.mpr (hstale d t hc)
    simp [get_project_context, hc, hnot, fetch_project_queries s store now name _ hdb]

/-- C3: a cache entry recorded at time `t` is served verbatim, without a
store query and without touching the state, for every call strictly before
`t + 300`; a call at or after `t + 300` queries the store again. -/
theorem get_project_context_cache_ttl (s : CtxState) (store : String → StoreRead)
    (now t : ℚ) (name : String) (doc : Doc)
    (hdb : s.db_connected = true)
    (hc : cache_lookup s.cache ("project_" ++ name) = some (doc, t)) :
    (now < t + 300 → get_project_context s store now name = (doc, s, false)) ∧
    (t + 300 ≤ now → (get_project_context s store now name).2.2 = true) := by
  constructor
  · intro hlt
    have hfresh : now - t < cache_ttl := by
      simp only [cache_ttl]
      linarith
    simp [get_project_context, hc, hfresh]
  · intro hge
    refine get_project_context_queries s store now name hdb ?_
    intro d' t' hc'
    rw [hc'] at hc
    obtain ⟨h1, h2⟩ := Prod.mk.injEq .. ▸ (Option.some.injEq .. ▸ hc)
    simp only [cache_ttl]
    linarith [h2 ▸ hge]

/-- Witness for C3: with project `X` cached at time 0, a call at time 100
returns the cached document without querying the store, and a call at
time 400 queries the store. -/
theorem get_project_context_cache_ttl_witness :
    get_project_context cmCached storeMissing 100 "X" = (docSample, cmCached, false) ∧
    (get_project_context cmCached storeMissing 400 "X").2.2 = true :=
  ⟨(get_project_context_cache_ttl cmCached storeMissing 100 0 "X" docSample rfl rfl).1
      (by norm_num),
   (get_project_context_cache_ttl cmCached storeMissing 400 0 "X" docSample rfl rfl).2
      (by norm_num)⟩

/-- C5: with no fresh cache entry, when the store client is absent or every
store access raises, `get_project_context` returns (rather than raising) the
default context: the project's name, status `"Unknown"`, a description
indicating unavailability, and the offline flag set; the state is unchanged. -/
theorem get_project_context_offline_default (s : CtxState)
    (store : String → StoreRead) (now : ℚ) (name : String)
    (hstale : ∀ d t, cache_lookup s.cache ("project_" ++ name) = some (d, t) →
      cache_ttl ≤ now - t)
    (hfail : s.db_connected = false ∨ ∀ id, ∃ m, store id = StoreRead.fail m) :
    (get_project_context s store now name).1 = get_default_project_context name ∧
    (get_project_context s store now name).2.1 = s ∧
    dictFind (get_project_context s store now name).1 "name" = some (Val.str name) ∧
    dictFind (get_project_context s store now name).1 "status" =
      some (Val.str "Unknown") ∧
    dictFind (get_project_context s store now name).1 "description" =
      some (Val.str "Context unavailable - Firestore not connected") ∧
    dictFind (get_project_context s store now name).1 "offline_mode" =
      some (Val.bool true) := by
  have hf : (fetch_project s store now name ("project_" ++ name)).1 =
      get_default_project_context name ∧
      (fetch_project s store now name ("project_" ++ name)).2.1 = s := by
    cases hdb : s.db_connected with
    | false => simp [fetch_project, hdb]
    | true =>
      rcases hfail with h | h
      · rw [hdb] at h
        cases h
      · obtain ⟨m, hm⟩ := h (doc_id name)
        simp [fetch_project, hdb, hm]
  have key : (get_project_context s store now name).1 =
      get_default_project_context name ∧
      (get_project_context s store now name).2.1 = s := by
    rcases hc : cache_lookup s.cache ("project_" ++ name) with _ | ⟨d, t⟩
    · simpa [get_project_context, hc] using hf
    · have hnot : ¬ (now - t < cache_ttl) := not_lt.mpr (hstale d t hc)
      simpa [get_project_context, hc, hnot] using hf
  refine ⟨key.1, key.2, ?_, ?_, ?_, ?_⟩ <;> rw [key.1] <;> rfl

/-- Witness for C5 at a client with no store connection. -/
theorem get_project_context_offline_default_witness :
    (get_project_context cmOffline storeFails 0 "X").1 =
      get_default_project_context "X" ∧
    (get_project_context cmOffline storeFails 0 "X").2.1 = cmOffline ∧
    dictFind (get_project_context cmOffline storeFails 0 "X").1 "name" =
      some (Val.str "X") ∧
    dictFind (get_project_context cmOffline storeFails 0 "X").1 "status" =
      some (Val.str "Unknown") ∧
    dictFind (get_project_context cmOffline storeFails 0 "X").1 "description" =
      some (Val.str "Context unavailable - Firestore not connected") ∧
    dictFind (get_project_context cmOffline storeFails 0 "X").1 "offline_mode" =
      some (Val.bool true) :=
  get_project_context_offline_default cmOffline storeFails 0 "X"
    (fun d t h => by simp [cmOffline, cache_lookup] at h) (Or.inl rfl)

/-- C10: the cache acquires entries only from successful store reads of an
existing document — any call either leaves the cache untouched or inserts
the very document the store returned; consequently a call that fell back to
the default context leaves the whole state unchanged and the very next call
for the same project queries the store again. -/
theorem cache_only_caches_store_hits :
    (∀ (s : CtxState) (store : String → StoreRead) (now : ℚ) (name : String),
      (get_project_context s store now name).2.1.cache = s.cache ∨
      ∃ doc, store (doc_id name) = StoreRead.found doc ∧
        (get_project_context s store now name).1 = doc ∧
        (get_project_context s store now name).2.1.cache =
          cache_insert s.cache ("project_" ++ name) doc now) ∧
    (∀ (s : CtxState) (store store2 : String → StoreRead) (now now2 : ℚ)
        (name : String),
      s.db_connected = true →
      (∀ d t, cache_lookup s.cache ("project_" ++ name) = some (d, t) →
        cache_ttl ≤ now - t) →
      (store (doc_id name) = StoreRead.missing ∨
        ∃ m, store (doc_id name) = StoreRead.fail m) →
      now ≤ now2 →
      (get_project_context s store now name).1 = get_default_project_context name ∧
      (get_project_context s store now name).2.1 = s ∧
      (get_project_context s store now name).2.2 = true ∧
      (get_project_context (get_project_context s store now name).2.1 store2 now2
        name).2.2 = true) := by
  constructor
  · intro s store now name
    have hfetch : ∀ key, (fetch_project s store now name key).2.1.cache = s.cache ∨
        ∃ doc, store (doc_id name) = StoreRead.found doc ∧
          (fetch_project s store now name key).1 = doc ∧
          (fetch_project s store now name key).2.1.cache =
            cache_insert s.cache key doc now := by
      intro key
      cases hdb : s.db_connected with
      | false => left; simp [fetch_project, hdb]
      | true =>
        rcases hs : store (doc_id name) with doc | _ | m
        · right
          exact ⟨doc, rfl, by simp [fetch_project, hdb, hs], by simp [fetch_project, hdb, hs]⟩
        · left; simp [fetch_project, hdb, hs]
        · left; simp [fetch_project, hdb, hs]
    rcases hc : cache_lookup s.cache ("project_" ++ name) with _ | ⟨d, t⟩
    · simpa [get_project_context, hc] using hfetch ("project_" ++ name)
    · by_cases hfresh : now - t < cache_ttl
      · left; simp [get_project_context, hc, hfresh]
      · simpa [get_project_context, hc, hfresh] using hfetch ("project_" ++ name)
  · intro s store store2 now now2 name hdb hstale hmiss hle
    have hfall : fetch_project s store now name ("project_" ++ name) =
        (get_default_project_context name, s, true) :=
      fetch_project_fallback s store now name _ hdb hmiss
    have key : get_project_context s store now name =
        (get_default_project_context name, s, true) := by
      rcases hc : cache_lookup s.cache ("project_" ++ name) with _ | ⟨d, t⟩
      · simpa [get_project_context, hc] using hfall
      · have hnot : ¬ (now - t < cache_ttl) := not_lt.mpr (hstale d t hc)
        simpa [get_project_context, hc, hnot] using hfall
    refine ⟨by rw [key], by rw [key], by rw [key], ?_⟩
    rw [key]
    refine get_project_context_queries s store2 now2 name hdb ?_
    intro d t hc
    have h300 := hstale d t hc
    have : cache_ttl ≤ now2 - t := by linarith
    exact this

/-- Witness for C10 at a connected client with an empty cache and a store on
which the project document is absent. -/
theorem cache_only_caches_store_hits_witness :
    ((get_project_context cmOnline storeMissing 0 "X").2.1.cache = cmOnline.cache ∨
      ∃ doc, storeMissing (doc_id "X") = StoreRead.found doc ∧
        (get_project_context cmOnline storeMissing 0 "X").1 = doc ∧
        (get_project_context cmOnline storeMissing 0 "X").2.1.cache =
          cache_insert cmOnline.cache ("project_" ++ "X") doc 0) ∧
    ((get_project_context cmOnline storeMissing 0 "X").1 =
        get_default_project_context "X" ∧
      (get_project_context cmOnline storeMissing 0 "X").2.1 = cmOnline ∧
      (get_project_context cmOnline storeMissing 0 "X").2.2 = true ∧
      (get_project_context (get_project_context cmOnline storeMissing 0 "X").2.1
        storeMissing 5 "X").2.2 = true) :=
  ⟨cache_only_caches_store_hits.1 cmOnline storeMissing 0 "X",
   cache_only_caches_store_hits.2 cmOnline storeMissing storeMissing 0 5 "X" rfl
     (fun d t h => by simp [cmOnline, cache_lookup] at h) (Or.inl rfl) (by norm_num)⟩

/-- C4: `save_conversation` returns `true` exactly when the client is
connected and the primary write succeeds; every store exception is converted
to a `false` return, and the outcome of the best-effort history backup never
changes the returned value. -/
theorem save_conversation_primary_only (s : CtxState) (st : Store)
    (pw b1 b2 : WriteRes) (project : String) (messages : List Message) (now : ℚ) :
    ((save_conversation s st pw b1 project messages now).1 = true ↔
      (s.db_connected = true ∧ pw = WriteRes.ok)) ∧
    (save_conversation s st pw b1 project messages now).1 =
      (save_conversation s st pw b2 project messages now).1 := by
  cases hdb : s.db_connected <;> cases pw <;> simp [save_conversation, hdb]

/-- C8: two successive saves for the same project overwrite the project's
conversation document wholesale — after saving a 5-message conversation and
then a 2-message conversation, the stored document holds exactly the
2-message list with `message_count = 2` and the version tag, with no merge. -/
theorem save_conversation_overwrites (s : CtxState) (st : Store)
    (b1 b2 : WriteRes) (project : String) (m1 m2 : List Message) (now1 now2 : ℚ)
    (hdb : s.db_connected = true) (_h1 : m1.length = 5) (h2 : m2.length = 2) :
    conv_lookup
      (save_conversation s
        (save_conversation s st WriteRes.ok b1 project m1 now1).2
        WriteRes.ok b2 project m2 now2).2.conversations
      (doc_id project) = some ⟨project, m2, 2, now2, 2⟩ := by
  simp [save_conversation, hdb, save_conversation_history_conversations,
    conv_lookup_insert, h2]

/-- Witness for C8 on concrete 5- and 2-message conversations. -/
theorem save_conversation_overwrites_witness :
    conv_lookup
      (save_conversation cmOnline
        (save_conversation cmOnline stEmpty WriteRes.ok WriteRes.ok "HAVEN Platform"
          (List.replicate 5 ⟨"user", "a"⟩) 1).2
        WriteRes.ok WriteRes.ok "HAVEN Platform"
        (List.replicate 2 ⟨"user", "b"⟩) 2).2.conversations
      (doc_id "HAVEN Platform") =
    some ⟨"HAVEN Platform", List.replicate 2 ⟨"user", "b"⟩, 2, 2, 2⟩ :=
  save_conversation_overwrites cmOnline stEmpty WriteRes.ok WriteRes.ok
    "HAVEN Platform" (List.replicate 5 ⟨"user", "a"⟩)
    (List.replicate 2 ⟨"user", "b"⟩) 1 2 rfl rfl rfl

/-- C2 counterexample: on a turn where the gateway is not configured, `chat`
returns its immediate configuration-error message, yet `handle_user_input`
still increments `request_count` to 1 and adds the stale `last_request_cost`
(1/100) to `total_cost` — the claim says neither counter changes. -/
theorem handle_user_input_counts_unconfigured_turn :
    (handle_user_input sessInit cmOffline gwUnconfigured storeMissing 0 genFails 0
        stEmpty WriteRes.ok WriteRes.ok "hi").1.request_count = 1 ∧
    (handle_user_input sessInit cmOffline gwUnconfigured storeMissing 0 genFails 0
        stEmpty WriteRes.ok WriteRes.ok "hi").1.total_cost = 1 / 100 := by
  constructor
  · decide
  · norm_num [handle_user_input, chat, gwUnconfigured, sessInit]

/-- C2 (amended): `handle_user_input` increments `request_count` by 1 and
adds the gateway's `last_request_cost` to `total_cost` on every turn,
including the immediate not-configured short-circuit — in which case the
added `last_request_cost` is simply the unchanged previous value. -/
theorem handle_user_input_counters (sess : SessionState) (cm : CtxState)
    (gw : GatewayState) (store : String → StoreRead) (now : ℚ)
    (gen : ℕ → Except String String) (elapsed : ℚ) (st : Store)
    (pw bw : WriteRes) (input : String) :
    (handle_user_input sess cm gw store now gen elapsed st pw bw
        input).1.request_count = sess.request_count + 1 ∧
    (gw.model_configured = false →
      (handle_user_input sess cm gw store now gen elapsed st pw bw
          input).1.total_cost = sess.total_cost + gw.last_request_cost ∧
      (handle_user_input sess cm gw store now gen elapsed st pw bw
          input).2.2.1.last_request_cost = gw.last_request_cost) := by
  refine ⟨rfl, fun h => ⟨?_, ?_⟩⟩ <;> simp [handle_user_input, chat, h]

/-- Witness for C2 (amended) on the concrete unconfigured turn. -/
theorem handle_user_input_counters_witness :
    (handle_user_input sessInit cmOffline gwUnconfigured storeMissing 0 genFails 0
        stEmpty WriteRes.ok WriteRes.ok "hi").1.request_count =
      sessInit.request_count + 1 ∧
    ((handle_user_input sessInit cmOffline gwUnconfigured storeMissing 0 genFails 0
        stEmpty WriteRes.ok WriteRes.ok "hi").1.total_cost =
      sessInit.total_cost + gwUnconfigured.last_request_cost ∧
    (handle_user_input sessInit cmOffline gwUnconfigured storeMissing 0 genFails 0
        stEmpty WriteRes.ok WriteRes.ok "hi").2.2.1.last_request_cost =
      gwUnconfigured.last_request_cost) :=
  ⟨(handle_user_input_counters sessInit cmOffline gwUnconfigured storeMissing 0
      genFails 0 stEmpty WriteRes.ok WriteRes.ok "hi").1,
   (handle_user_input_counters sessInit cmOffline gwUnconfigured storeMissing 0
      genFails 0 stEmpty WriteRes.ok WriteRes.ok "hi").2 rfl⟩

/-- C6 counterexample: on an 11-message history and a one-entry context, the
prompt the code builds differs from the spec's layout (whole fixed preamble
before the context lines): the code inserts the context lines between the
capabilities section and the communication-style section of the preamble. -/
theorem build_prompt_not_spec_layout :
    10 < hist11.length ∧
    build_prompt "hi" (some ctxKV) (some hist11) ≠
      build_prompt_spec "hi" (some ctxKV) (some hist11) := by
  constructor
  · decide
  · decide

/-- C6 (amended): for a history of more than 10 messages, the prompt is the
mission/capabilities part of the preamble, then the context key/value lines
(internal timestamp fields excluded), then the communication-style part of
the preamble, then exactly the last 10 history messages in chronological
order, each rendered as `"<ROLE>: <content>"` and separated by blank lines,
then the new user message, then the assistant-turn marker. -/
theorem build_prompt_layout (msg : String) (ctx : Option Doc)
    (hist : List Message) (hlen : 10 < hist.length) :
    build_prompt msg ctx (some hist) =
      base_prompt_1 ++ context_block ctx ++ base_prompt_2 ++ "\n\n" ++
        String.join ((hist.drop (hist.length - 10)).map render_message) ++
        "USER: " ++ msg ++ "\n\nASSISTANT:" ∧
    (hist.drop (hist.length - 10)).length = 10 := by
  have hne : hist.isEmpty = false := by
    cases hist with
    | nil => simp at hlen
    | cons a l => rfl
  constructor
  · simp [build_prompt, build_system_prompt, history_block, hne]
  · rw [List.length_drop]
    omega

/-- Witness for C6 (amended) on the 11-message history. -/
theorem build_prompt_layout_witness :
    build_prompt "hi" (some ctxKV) (some hist11) =
      base_prompt_1 ++ context_block (some ctxKV) ++ base_prompt_2 ++ "\n\n" ++
        String.join ((hist11.drop (hist11.length - 10)).map render_message) ++
        "USER: " ++ "hi" ++ "\n\nASSISTANT:" ∧
    (hist11.drop (hist11.length - 10)).length = 10 :=
  build_prompt_layout "hi" (some ctxKV) hist11 (by decide)

end Valhalla
